import Mathlib

/-!
Shallow embedding of `src/main.py` (a PyQt6 + pandas data-visualisation app).

The verified core is the `PandasModel` class (a `QAbstractTableModel`
subclass wrapping a pandas `DataFrame`) and `DataApp.get_statistics`.

Modelling conventions:
* A pandas `DataFrame` is stored column-major (as pandas does): a list of
  column labels, a list of row-index labels, and one list of cell values per
  column.  pandas cannot represent ragged frames, so the uniform-length
  invariants are carried as fields of the structure; the fallible dictionary
  constructor `DataFrame.fromDict` models `pd.DataFrame(dict)` which raises
  `ValueError("All arrays must be of the same length")` on ragged input.
* Python exceptions are `Except String`; `Except.error "IndexError"` models
  the `IndexError` raised by `DataFrame.iloc` / `Index.__getitem__` on
  out-of-bounds positional access.  Python negative indexing (wrap-around
  from the end) is modelled by `pyNorm`.
* Scalar cell values are `Value`: integers, rationals (idealising `float64`),
  or strings.  Python `str()` is embedded as `Value.str` (decimal rendering,
  locale-independent, no grouping separators; the fractional expansion of a
  rational is cut at 17 digits, the precision of `repr` for `float64`).
* Qt method calls are embedded in explicit state-passing style: each method
  takes the receiver and returns `(result, receiver afterwards)`, so that
  absence of mutation is a provable statement rather than a convention.
-/

set_option autoImplicit false

/-- A scalar cell value: `vInt` for Python/numpy integers, `vRat` for
`float64` (idealised as a rational), `vStr` for strings. -/
inductive Value where
  | vInt (i : Int)
  | vRat (q : Rat)
  | vStr (s : String)
  deriving DecidableEq, Repr

/-- A value is numeric when pandas would give its column a numeric dtype. -/
def Value.isNumeric : Value → Bool
  | .vInt _ => true
  | .vRat _ => true
  | .vStr _ => false

/-- The decimal digit character for `d < 10` (models Python decimal output). -/
def digitChar10 (d : Nat) : Char := Char.ofNat (48 + d)

/-- Decimal digits of a natural number, most significant first (structural
recursion on a fuel bound so that the kernel can evaluate it; `n + 1` steps
always suffice since the argument shrinks by a factor of ten each step). -/
def natDigitsAux : Nat → Nat → List Nat
  | 0, _ => []
  | fuel + 1, n => if n < 10 then [n] else natDigitsAux fuel (n / 10) ++ [n % 10]

/-- Decimal digits of a natural number, most significant first. -/
def natDigits (n : Nat) : List Nat := natDigitsAux (n + 1) n

/-- Python `str` on a non-negative integer. -/
def pyStrNat (n : Nat) : String := String.mk ((natDigits n).map digitChar10)

/-- Python `str` on an integer. -/
def pyStrInt : Int → String
  | .ofNat n => pyStrNat n
  | .negSucc n => "-" ++ pyStrNat (n + 1)

/-- Decimal digits of the fraction `n / d` (with `n < d`), most significant
first, cut off after `fuel` digits or when the expansion terminates. -/
def fracDigits : Nat → Nat → Nat → List Nat
  | 0, _, _ => []
  | fuel + 1, n, d => if n = 0 then [] else (n * 10) / d :: fracDigits fuel ((n * 10) % d) d

/-- Python `str` on a `float64`, idealised over the rationals: sign, integer
part, decimal point, then the fractional digits (at least one, as Python
prints `2.0` rather than `2`), cut at 17 digits. -/
def pyStrRat (q : Rat) : String :=
  let sign := if q < 0 then "-" else ""
  let n := q.num.natAbs
  let d := q.den
  let frac := fracDigits 17 (n % d) d
  sign ++ pyStrNat (n / d) ++ "." ++
    (if frac.isEmpty then "0" else String.mk (frac.map digitChar10))

/-- Python `str(value)` as used by `PandasModel.data` (main.py line 31) and
`PandasModel.headerData` (lines 37 and 39). -/
def Value.str : Value → String
  | .vInt i => pyStrInt i
  | .vRat q => pyStrRat q
  | .vStr s => s

/-- A pandas `DataFrame`: named columns of uniform length plus a row index,
stored column-major.  pandas cannot construct a ragged frame, so the
uniform-length invariants are structure fields. -/
structure DataFrame where
  columns : List Value
  index : List Value
  colData : List (List Value)
  hCols : colData.length = columns.length
  hLens : ∀ col ∈ colData, col.length = index.length

/-- `pd.DataFrame()`: the empty frame (used as the default `df` argument of
`PandasModel.__init__`, main.py line 16). -/
def DataFrame.empty : DataFrame :=
  ⟨[], [], [], rfl, by intro col h; cases h⟩

/-- `df.shape[0]` — the number of rows (main.py line 21). -/
def DataFrame.shape0 (df : DataFrame) : Nat := df.index.length

/-- `df.shape[1]` — the number of columns (main.py line 24). -/
def DataFrame.shape1 (df : DataFrame) : Nat := df.columns.length

/-- The positional row index `[0, 1, ...]` pandas creates by default. -/
def defaultIndex (n : Nat) : List Value :=
  List.map (fun i => Value.vInt (Int.ofNat i)) (List.range n)

/-- `pd.DataFrame(dict)` building a frame from named columns: raises
`ValueError("All arrays must be of the same length")` when the columns are
ragged, otherwise produces the frame with a default positional index. -/
def DataFrame.fromDict (cols : List (String × List Value)) : Except String DataFrame :=
  let n := (cols.head?.map (fun p => p.2.length)).getD 0
  if h : ∀ p ∈ cols, p.2.length = n then
    .ok ⟨cols.map (fun p => .vStr p.1), defaultIndex n, cols.map (fun p => p.2),
      by simp, by
        intro col hcol
        simp only [List.mem_map] at hcol
        obtain ⟨p, hp, rfl⟩ := hcol
        rw [show (defaultIndex n).length = n by
          simp only [defaultIndex, List.length_map, List.length_range]]
        exact h p hp⟩
  else .error "All arrays must be of the same length"

/-- Python positional-index normalisation: `some k` with `k` the actual
position when `i` is in range (negative `i` counts from the end), `none`
when the access would raise `IndexError`. -/
def pyNorm (n : Nat) (i : Int) : Option Nat :=
  if 0 ≤ i then
    if i < (n : Int) then some i.toNat else none
  else
    if -(n : Int) ≤ i then some ((n : Int) + i).toNat else none

/-- `df.iloc[r, c]` (main.py line 30): positional scalar access, Python
negative indexing allowed, `IndexError` out of bounds. -/
def DataFrame.iloc (df : DataFrame) (r c : Int) : Except String Value :=
  match pyNorm df.shape0 r, pyNorm df.shape1 c with
  | some r0, some c0 =>
    match df.colData[c0]? with
    | some col =>
      match col[r0]? with
      | some v => .ok v
      | none => .error "IndexError"
    | none => .error "IndexError"
  | _, _ => .error "IndexError"

/-- `idx[i]` on a pandas `Index` (`df.columns[section]` main.py line 37,
`df.index[section]` line 39): Python negative indexing allowed, `IndexError`
out of bounds. -/
def pyGetItem (l : List Value) (i : Int) : Except String Value :=
  match pyNorm l.length i with
  | some k =>
    match l[k]? with
    | some v => .ok v
    | none => .error "IndexError"
  | none => .error "IndexError"

/-- The cell stored at row `r`, column `c` of the snapshot (column-major
lookup with dummy defaults, only meaningful in bounds). -/
def DataFrame.cellAt (df : DataFrame) (r c : Nat) : Value :=
  ((df.colData.getD c []).getD r (.vStr ""))

/-- `Qt.ItemDataRole.DisplayRole` (value 0 in Qt). -/
def displayRole : Nat := 0

/-- `Qt.Orientation.Horizontal` (value 1 in Qt). -/
def horizontalOrientation : Nat := 1

/-- `Qt.Orientation.Vertical` (value 2 in Qt). -/
def verticalOrientation : Nat := 2

/-- A `QModelIndex` as handed to `PandasModel.data`: a row, a column, and
whether the index is attached to a model (the default-constructed
`QModelIndex()` has no model; indexes created by a model via `createIndex`
have one, and may be stale — their coordinates can exceed the model's
current dimensions). -/
structure QModelIndex where
  row : Int
  column : Int
  hasModel : Bool
  deriving DecidableEq, Repr

/-- `QModelIndex.isValid()`: true iff the index belongs to a model and both
coordinates are non-negative (Qt checks exactly this, not upper bounds). -/
def QModelIndex.isValid (idx : QModelIndex) : Bool :=
  idx.hasModel && decide (0 ≤ idx.row) && decide (0 ≤ idx.column)

/-- The `PandasModel` adapter (main.py lines 15-40): holds exactly the
wrapped snapshot `_df` (Qt base-class internals are outside the model). -/
structure PandasModel where
  _df : DataFrame

/-- `PandasModel.__init__` (main.py lines 16-18): stores the given frame
without any validation and cannot fail. -/
def PandasModel.init (df : DataFrame) : PandasModel := ⟨df⟩

/-- `PandasModel.rowCount` (main.py lines 20-21): returns `self._df.shape[0]`,
ignoring `parent` (default `None` in the source).  State-passing style: the
second component is the receiver after the call. -/
def PandasModel.rowCount (m : PandasModel) (parent : Option Unit) : Nat × PandasModel :=
  (m._df.shape0, m)

/-- `PandasModel.columnCount` (main.py lines 23-24): returns
`self._df.shape[1]`, ignoring `parent`. -/
def PandasModel.columnCount (m : PandasModel) (parent : Option Unit) : Nat × PandasModel :=
  (m._df.shape1, m)

/-- `PandasModel.data` (main.py lines 26-32): `None` for an invalid index;
under `DisplayRole`, `str(self._df.iloc[row, column])` (which propagates
`IndexError` for a stale in-model index that is out of the current bounds);
`None` for every other role.  The `Except` layer carries the possible
exception; `Option String` is the Python return value (`None` or a string). -/
def PandasModel.data (m : PandasModel) (index : QModelIndex) (role : Nat) :
    Except String (Option String) × PandasModel :=
  (if !index.isValid then .ok none
   else if role = displayRole then
     (m._df.iloc index.row index.column).map (fun v => some v.str)
   else .ok none, m)

/-- `PandasModel.headerData` (main.py lines 34-40): under `DisplayRole`,
`str(self._df.columns[section])` for the horizontal axis and
`str(self._df.index[section])` for the vertical axis (both propagate
`IndexError` when `section` is out of bounds); `None` for an unrecognized
orientation or any other role. -/
def PandasModel.headerData (m : PandasModel) (sec : Int) (orientation : Nat) (role : Nat) :
    Except String (Option String) × PandasModel :=
  (if role = displayRole then
     if orientation = horizontalOrientation then
       (pyGetItem m._df.columns sec).map (fun v => some v.str)
     else if orientation = verticalOrientation then
       (pyGetItem m._df.index sec).map (fun v => some v.str)
     else .ok none
   else .ok none, m)

/-- The snapshot replacement of the spec's `replaceData`: `DataApp.update_stat`
(main.py lines 109-114) installs `PandasModel(df_stat)` in place of the prior
model, i.e. the held snapshot is swapped wholesale for the new one. -/
def PandasModel.replaceData (m : PandasModel) (s : DataFrame) : Unit × PandasModel :=
  ((), ⟨s⟩)

/-- The numeric content of a cell (`float64` arithmetic idealised over ℚ;
non-numeric cells never reach this after `select_dtypes`). -/
def Value.toRat : Value → Rat
  | .vInt i => (i : Rat)
  | .vRat q => q
  | .vStr _ => 0

/-- `df.select_dtypes(include='number')` (main.py line 119): keeps exactly
the columns of numeric dtype (all cells numeric), with their labels, and the
unchanged row index. -/
def DataFrame.selectNumber (df : DataFrame) : DataFrame :=
  let keep := (df.columns.zip df.colData).filter (fun p => p.2.all Value.isNumeric)
  ⟨keep.map Prod.fst, df.index, keep.map Prod.snd,
    by simp, by
      intro col hcol
      simp only [keep, List.mem_map] at hcol
      obtain ⟨p, hp, rfl⟩ := hcol
      exact df.hLens p.2 (List.of_mem_zip (List.mem_filter.mp hp).1).2⟩

/-- Square root over ℚ, approximating `float64` sqrt (exact on perfect
squares); used only for the `std` row of `describe`. -/
def ratSqrt (q : Rat) : Rat :=
  if q ≤ 0 then 0 else (Nat.sqrt (q.num.toNat * q.den) : Rat) / (q.den : Rat)

/-- The pandas linear-interpolation quantile of an ascending-sorted list. -/
def quantileSorted (sorted : List Rat) (p : Rat) : Rat :=
  match sorted with
  | [] => 0
  | _ =>
    let pos : Rat := p * ((sorted.length : Rat) - 1)
    let i : Nat := (Rat.floor pos).toNat
    let g : Rat := pos - (i : Rat)
    let a := sorted.getD i 0
    let b := sorted.getD (i + 1) a
    a + g * (b - a)

/-- The eight rows `count, mean, std, min, 25%, 50%, 75%, max` that
`df.describe()` computes for one numeric column (`float64` arithmetic
idealised over ℚ; `std` is the sample standard deviation). -/
def describeCol (l : List Rat) : List Rat :=
  let n := l.length
  let mean : Rat := if n = 0 then 0 else l.sum / (n : Rat)
  let var : Rat :=
    if n ≤ 1 then 0 else (l.map (fun x => (x - mean) ^ 2)).sum / ((n : Rat) - 1)
  let sorted := List.insertionSort (· ≤ ·) l
  [(n : Rat), mean, ratSqrt var,
    sorted.headD 0, quantileSorted sorted (1 / 4), quantileSorted sorted (1 / 2),
    quantileSorted sorted (3 / 4), sorted.getLastD 0]

/-- The row labels of a `describe()` summary. -/
def describeIndex : List Value :=
  [.vStr "count", .vStr "mean", .vStr "std", .vStr "min",
   .vStr "25%", .vStr "50%", .vStr "75%", .vStr "max"]

/-- The summary frame `df.describe()` produces when the input has at least
one column: one summary column of eight statistics per input column. -/
def DataFrame.describeFrame (df : DataFrame) : DataFrame :=
  ⟨df.columns, describeIndex,
    df.colData.map (fun col => (describeCol (col.map Value.toRat)).map Value.vRat),
    by simpa using df.hCols, by
      intro col hcol
      simp only [List.mem_map] at hcol
      obtain ⟨c, _, rfl⟩ := hcol
      simp [describeCol, describeIndex]⟩

/-- `df.describe()` on a numeric frame (main.py line 120): raises
`ValueError("Cannot describe a DataFrame without columns")` when the frame
has no columns (as happens when `select_dtypes` kept none), otherwise
returns the eight-statistics summary frame. -/
def DataFrame.describe (df : DataFrame) : Except String DataFrame :=
  if df.columns.isEmpty then .error "Cannot describe a DataFrame without columns"
  else .ok df.describeFrame

/-- `df.transpose()` (main.py line 120): swaps rows and columns. -/
def DataFrame.transpose (df : DataFrame) : DataFrame :=
  ⟨df.index, df.columns,
    List.map (fun i => df.colData.map (fun col => col.getD i (.vStr "")))
      (List.range df.index.length),
    by simp [DataFrame.shape0], by
      intro col hcol
      simp only [List.mem_map] at hcol
      obtain ⟨i, _, rfl⟩ := hcol
      simp [df.hCols]⟩

/-- Rounding of one cell by `df.round(2)`: numeric cells are rounded to two
decimals (`float64` rounding idealised as exact decimal rounding over ℚ),
other cells pass through. -/
def roundCell2 (v : Value) : Value :=
  match v with
  | .vRat q => .vRat ((Rat.floor (q * 100 + 1 / 2) : Rat) / 100)
  | .vInt i => .vInt i
  | .vStr s => .vStr s

/-- `df.round(2)` (main.py line 121). -/
def DataFrame.round2 (df : DataFrame) : DataFrame :=
  ⟨df.columns, df.index, df.colData.map (List.map roundCell2),
    by simpa using df.hCols, by
      intro col hcol
      simp only [List.mem_map] at hcol
      obtain ⟨c, hc, rfl⟩ := hcol
      simpa using df.hLens c hc⟩

/-- `pd.DataFrame([["Таблица не найдена"]], columns=["Ошибка"])`
(main.py line 124): the one-row, one-column fallback table. -/
def errorTable : DataFrame :=
  ⟨[.vStr "Ошибка"], [.vInt 0], [[.vStr "Таблица не найдена"]],
    rfl, by intro col h; simp at h; simp [h]⟩

/-- `DataApp.get_statistics` (main.py lines 116-124): look the name up in
`data_tables` (`dict.get`, embedded as an association list); on a hit,
return `df.select_dtypes(include='number').describe().transpose().round(2)`
— the `ValueError` that `describe()` raises on a columnless numeric
selection propagates out — and on a miss, return the `errorTable`
fallback. -/
def get_statistics (data_tables : List (String × DataFrame)) (table_name : String) :
    Except String DataFrame :=
  match data_tables.lookup table_name with
  | some df => ((df.selectNumber).describe).map (fun desc => desc.transpose.round2)
  | none => .ok errorTable

/-- A concrete 2×2 snapshot: columns `a`, `b`, rows `[1, 2]` and `[3, 4]`
(the worked example of the spec), stored column-major. -/
def dfExample : DataFrame :=
  ⟨[.vStr "a", .vStr "b"], [.vInt 0, .vInt 1],
    [[.vInt 1, .vInt 3], [.vInt 2, .vInt 4]],
    rfl, by intro col h; simp at h; rcases h with h | h <;> simp [h]⟩

/-- A concrete 1×1 snapshot holding the single value `7`. -/
def dfOne : DataFrame :=
  ⟨[.vStr "a"], [.vInt 0], [[.vInt 7]], rfl, by intro col h; simp at h; simp [h]⟩

/-- A concrete 1×1 snapshot with a single text column (no numeric columns),
such as a frame loaded from an all-string CSV. -/
def dfText : DataFrame :=
  ⟨[.vStr "name"], [.vInt 0], [[.vStr "x"]], rfl, by intro col h; simp at h; simp [h]⟩

theorem pyNorm_natCast {n r : Nat} (h : r < n) : pyNorm n (r : Int) = some r := by
  unfold pyNorm
  rw [if_pos (Int.natCast_nonneg r), if_pos (by exact_mod_cast h)]
  simp

theorem pyNorm_none_high {n : Nat} {i : Int} (h : (n : Int) ≤ i) : pyNorm n i = none := by
  unfold pyNorm
  rw [if_pos (le_trans (Int.natCast_nonneg n) h), if_neg (by omega)]

theorem pyNorm_none_low {n : Nat} {i : Int} (h : i < -(n : Int)) : pyNorm n i = none := by
  unfold pyNorm
  split_ifs <;> first | rfl | omega

theorem iloc_error_of_oob (df : DataFrame) (r c : Int)
    (h : (df.shape0 : Int) ≤ r ∨ (df.shape1 : Int) ≤ c) :
    df.iloc r c = .error "IndexError" := by
  unfold DataFrame.iloc
  rcases h with h | h
  · rw [pyNorm_none_high h]
  · rw [pyNorm_none_high h]
    cases pyNorm df.shape0 r <;> rfl

theorem pyGetItem_error_of_oob (l : List Value) (i : Int)
    (h : (l.length : Int) ≤ i ∨ i < -(l.length : Int)) :
    pyGetItem l i = .error "IndexError" := by
  unfold pyGetItem
  rcases h with h | h
  · rw [pyNorm_none_high h]
  · rw [pyNorm_none_low h]

theorem pyGetItem_neg_ok (l : List Value) (i : Int)
    (h1 : -(l.length : Int) ≤ i) (h2 : i < 0) :
    ∃ v, pyGetItem l i = .ok v := by
  have hk : ((l.length : Int) + i).toNat < l.length := by omega
  have hn : pyNorm l.length i = some ((l.length : Int) + i).toNat := by
    unfold pyNorm
    rw [if_neg (by omega), if_pos h1]
  refine ⟨l.get ⟨((l.length : Int) + i).toNat, hk⟩, ?_⟩
  unfold pyGetItem
  rw [hn]
  simp [List.getElem?_eq_getElem hk]

/-- C4: `rowCount` returns the number of rows of the held snapshot (the
length of its row index, which equals the length of every column),
`columnCount` returns the number of columns; both are `0` on the empty
snapshot, and both are total functions — they cannot fail. -/
theorem rowColumnCount_spec (m : PandasModel) (parent : Option Unit) :
    (m.rowCount parent).1 = m._df.index.length
    ∧ (∀ col ∈ m._df.colData, (m.rowCount parent).1 = col.length)
    ∧ (m.columnCount parent).1 = m._df.columns.length
    ∧ (m.columnCount parent).1 = m._df.colData.length
    ∧ ((PandasModel.init DataFrame.empty).rowCount parent).1 = 0
    ∧ ((PandasModel.init DataFrame.empty).columnCount parent).1 = 0 :=
  ⟨rfl, fun col h => (m._df.hLens col h).symm, rfl, m._df.hCols.symm ▸ rfl, rfl, rfl⟩

/-- Witness for C4 on the concrete 2×2 example snapshot. -/
theorem rowColumnCount_spec_witness :
    ((PandasModel.mk dfExample).rowCount none).1 =
      ([Value.vInt 1, Value.vInt 3] : List Value).length :=
  (rowColumnCount_spec ⟨dfExample⟩ none).2.1 [Value.vInt 1, Value.vInt 3] (by decide)

/-- C5: building the snapshot-plus-adapter from named raw columns fails with
the "malformed dataset" error (`ValueError: All arrays must be of the same
length`, raised by the `pd.DataFrame` constructor) exactly when the columns
have unequal lengths; on uniform columns construction succeeds, and
`PandasModel.__init__` itself merely stores the frame and can never fail. -/
theorem construction_malformed_spec (cols : List (String × List Value)) :
    (DataFrame.fromDict cols = .error "All arrays must be of the same length"
      ↔ ¬ ∀ p ∈ cols, p.2.length = ((cols.head?.map (fun q => q.2.length)).getD 0))
    ∧ ((∀ p ∈ cols, p.2.length = ((cols.head?.map (fun q => q.2.length)).getD 0)) →
        ∃ df, DataFrame.fromDict cols = .ok df)
    ∧ (∀ df : DataFrame, (PandasModel.init df)._df = df) := by
  refine ⟨?_, ?_, fun _ => rfl⟩
  · by_cases h : ∀ p ∈ cols, p.2.length = ((cols.head?.map (fun q => q.2.length)).getD 0)
    · simp only [DataFrame.fromDict, dif_pos h]
      exact iff_of_false (fun hco => Except.noConfusion hco) (fun hn => hn h)
    · have herr : DataFrame.fromDict cols = .error "All arrays must be of the same length" := by
        simp only [DataFrame.fromDict, dif_neg h]
      exact iff_of_true herr h
  · intro h
    simp only [DataFrame.fromDict, dif_pos h]
    exact ⟨_, rfl⟩

/-- Witness for C5: two ragged columns are rejected with the exact error. -/
theorem construction_malformed_spec_witness :
    DataFrame.fromDict [("a", [Value.vInt 1]), ("b", [])] =
      .error "All arrays must be of the same length" :=
  (construction_malformed_spec [("a", [Value.vInt 1]), ("b", [])]).1.mpr (by decide)

/-- C6: after the snapshot replacement performed by `update_stat`
(`replaceData`), `rowCount`/`columnCount` report the dimensions of the new
snapshot, whatever the prior model held (empty or not). -/
theorem replaceData_dims (m : PandasModel) (s : DataFrame) (parent : Option Unit) :
    (((m.replaceData s).2).rowCount parent).1 = s.index.length
    ∧ (((m.replaceData s).2).columnCount parent).1 = s.columns.length :=
  ⟨rfl, rfl⟩

/-- C7: every query (`rowCount`, `columnCount`, `data`, `headerData`)
returns the receiver unchanged — the held snapshot is never mutated — and
`replaceData` changes the state only by installing the new snapshot as the
held one (a wholesale reference swap). -/
theorem queries_pure_spec (m : PandasModel) (idx : QModelIndex) (sec : Int)
    (orientation role : Nat) (parent : Option Unit) (s : DataFrame) :
    (m.rowCount parent).2 = m
    ∧ (m.columnCount parent).2 = m
    ∧ (m.data idx role).2 = m
    ∧ (m.headerData sec orientation role).2 = m
    ∧ ((m.replaceData s).2)._df = s :=
  ⟨rfl, rfl, rfl, rfl, rfl⟩

/-- C9: under any role other than `DisplayRole`, `data` returns `None` even
for a valid in-bounds index, and `headerData` returns `None` for every
section and orientation. -/
theorem nonDisplay_role_none (m : PandasModel) (idx : QModelIndex) (sec : Int)
    (orientation role : Nat) (h : role ≠ displayRole) :
    (m.data idx role).1 = .ok none
    ∧ (m.headerData sec orientation role).1 = .ok none := by
  constructor
  · simp only [PandasModel.data, if_neg h]
    split <;> rfl
  · simp only [PandasModel.headerData, if_neg h]

/-- Witness for C9 at a valid in-bounds index and the `EditRole` value 2. -/
theorem nonDisplay_role_none_witness :
    ((PandasModel.mk dfExample).data ⟨0, 0, true⟩ 2).1 = .ok none
    ∧ ((PandasModel.mk dfExample).headerData 0 1 2).1 = .ok none :=
  nonDisplay_role_none ⟨dfExample⟩ ⟨0, 0, true⟩ 0 1 2 (by decide)

/-- C3: querying `data` under `DisplayRole` at any in-bounds coordinate pair
returns exactly `str` of the value stored at that position of the snapshot
the adapter was constructed from (the round-trip property). -/
theorem data_inBounds_roundTrip (df : DataFrame) (r c : Nat)
    (hr : r < df.shape0) (hc : c < df.shape1) :
    (PandasModel.data (PandasModel.init df) ⟨(r : Int), (c : Int), true⟩ displayRole).1
      = .ok (some (df.cellAt r c).str) := by
  have hvalid : QModelIndex.isValid ⟨(r : Int), (c : Int), true⟩ = true := by
    simp [QModelIndex.isValid]
  have hc2 : c < df.colData.length := by
    rw [df.hCols]; exact hc
  have hr2 : r < (df.colData[c]).length := by
    rw [df.hLens _ (List.getElem_mem hc2)]; exact hr
  have hiloc : df.iloc (r : Int) (c : Int) = .ok (df.colData[c][r]) := by
    unfold DataFrame.iloc
    rw [pyNorm_natCast hr, pyNorm_natCast hc]
    simp [List.getElem?_eq_getElem, hc2, hr2]
  have hcol : df.colData.getD c [] = df.colData[c] := by
    rw [List.getD_eq_getElem?_getD, List.getElem?_eq_getElem hc2, Option.getD_some]
  have hcell : df.cellAt r c = (df.colData[c])[r] := by
    unfold DataFrame.cellAt
    rw [hcol, List.getD_eq_getElem?_getD, List.getElem?_eq_getElem hr2, Option.getD_some]
  simp [PandasModel.data, PandasModel.init, hvalid, hiloc, hcell, Except.map]

/-- Counterexample to C1 as stated: on a one-row snapshot, querying `data`
under `DisplayRole` with a valid (model-attached, non-negative) index whose
row `1` satisfies `row >= rowCount()` does not return the "no value" result
— the `df.iloc` lookup raises `IndexError`. -/
theorem data_oob_raises_cex :
    dfOne.shape0 = 1
    ∧ (PandasModel.data ⟨dfOne⟩ ⟨1, 0, true⟩ displayRole).1 = .error "IndexError" :=
  ⟨rfl, rfl⟩

/-- C1 amended: `data` returns the "no value" result for every invalid
index (in particular for any negative coordinate), but for a valid index
whose row or column is out of range it raises `IndexError` when queried
under `DisplayRole`. -/
theorem data_invalid_and_oob (m : PandasModel) (idx : QModelIndex) (role : Nat) :
    (idx.isValid = false → (m.data idx role).1 = .ok none)
    ∧ (idx.isValid = true → role = displayRole →
        ((m._df.shape0 : Int) ≤ idx.row ∨ (m._df.shape1 : Int) ≤ idx.column) →
        (m.data idx role).1 = .error "IndexError") := by
  constructor
  · intro h
    simp [PandasModel.data, h]
  · intro hv hrole hoob
    simp [PandasModel.data, hv, hrole, iloc_error_of_oob m._df idx.row idx.column hoob,
      Except.map]

/-- Witness for C1 (amended) at an invalid index and at a stale valid one. -/
theorem data_invalid_and_oob_witness :
    ((PandasModel.mk dfOne).data ⟨-1, -1, false⟩ displayRole).1 = .ok none
    ∧ ((PandasModel.mk dfOne).data ⟨2, 0, true⟩ displayRole).1 = .error "IndexError" :=
  ⟨(data_invalid_and_oob ⟨dfOne⟩ ⟨-1, -1, false⟩ displayRole).1 rfl,
   (data_invalid_and_oob ⟨dfOne⟩ ⟨2, 0, true⟩ displayRole).2 rfl rfl (Or.inl (by decide))⟩

/-- Counterexample to C2 as stated: on a one-column snapshot, `headerData`
under `DisplayRole` raises `IndexError` for section `1 >= columnCount()`
instead of returning "no value", and for the negative section `-1` it
returns the last column label (Python wrap-around) rather than "no value". -/
theorem headerData_oob_cex :
    dfOne.columns.length = 1
    ∧ (PandasModel.headerData ⟨dfOne⟩ 1 horizontalOrientation displayRole).1
        = .error "IndexError"
    ∧ (PandasModel.headerData ⟨dfOne⟩ (-1) horizontalOrientation displayRole).1
        = .ok (some "a") :=
  ⟨rfl, rfl, rfl⟩

/-- C2 amended: `headerData` returns "no value" for an unrecognized axis
(and, per C9, for any non-`DisplayRole` role); but under `DisplayRole` on a
recognized axis it raises `IndexError` whenever the section is at or beyond
the axis length (or below minus the length), and a negative in-range section
returns the label counted from the end instead of "no value". -/
theorem headerData_oob_spec (m : PandasModel) (sec : Int) (orientation role : Nat) :
    (orientation ≠ horizontalOrientation → orientation ≠ verticalOrientation →
       (m.headerData sec orientation role).1 = .ok none)
    ∧ (role = displayRole → orientation = horizontalOrientation →
       ((m._df.columns.length : Int) ≤ sec ∨ sec < -(m._df.columns.length : Int)) →
       (m.headerData sec orientation role).1 = .error "IndexError")
    ∧ (role = displayRole → orientation = verticalOrientation →
       ((m._df.index.length : Int) ≤ sec ∨ sec < -(m._df.index.length : Int)) →
       (m.headerData sec orientation role).1 = .error "IndexError")
    ∧ (role = displayRole → orientation = horizontalOrientation →
       -(m._df.columns.length : Int) ≤ sec → sec < 0 →
       ∃ s, (m.headerData sec orientation role).1 = .ok (some s)) := by
  refine ⟨?_, ?_, ?_, ?_⟩
  · intro h1 h2
    by_cases hrole : role = displayRole <;>
      simp [PandasModel.headerData, h1, h2, hrole]
  · intro hrole horient hoob
    simp [PandasModel.headerData, hrole, horient,
      pyGetItem_error_of_oob _ _ hoob, Except.map]
  · intro hrole horient hoob
    simp [PandasModel.headerData, hrole, horient, horizontalOrientation,
      verticalOrientation, pyGetItem_error_of_oob _ _ hoob, Except.map]
  · intro hrole horient h1 h2
    obtain ⟨v, hv⟩ := pyGetItem_neg_ok m._df.columns sec h1 h2
    exact ⟨v.str, by simp [PandasModel.headerData, hrole, horient, hv, Except.map]⟩

/-- Witness for C2 (amended): an unrecognized axis yields "no value", and an
out-of-range section under the horizontal axis raises. -/
theorem headerData_oob_spec_witness :
    ((PandasModel.mk dfOne).headerData 0 3 displayRole).1 = .ok none
    ∧ ((PandasModel.mk dfOne).headerData 5 horizontalOrientation displayRole).1
        = .error "IndexError" :=
  ⟨(headerData_oob_spec ⟨dfOne⟩ 0 3 displayRole).1 (by decide) (by decide),
   (headerData_oob_spec ⟨dfOne⟩ 5 horizontalOrientation displayRole).2.1 rfl rfl
     (Or.inl (by decide))⟩

/-- Witness for C3: reading back cell (0, 1) of the example snapshot built
from rows `[1, 2]`, `[3, 4]` yields the text `"2"`. -/
theorem data_inBounds_roundTrip_witness :
    (PandasModel.data (PandasModel.init dfExample) ⟨0, 1, true⟩ displayRole).1
      = .ok (some "2") :=
  (data_inBounds_roundTrip dfExample 0 1 (by decide) (by decide)).trans (by
    have h : (dfExample.cellAt 0 1).str = "2" := by decide
    rw [h])

theorem natDigitsAux_lt_ten (fuel : Nat) :
    ∀ n, ∀ d ∈ natDigitsAux fuel n, d < 10 := by
  induction fuel with
  | zero => intro n d hd; simp [natDigitsAux] at hd
  | succ fuel ih =>
    intro n d hd
    unfold natDigitsAux at hd
    split_ifs at hd with h
    · simp at hd; omega
    · rcases List.mem_append.mp hd with h1 | h1
      · exact ih (n / 10) d h1
      · simp at h1
        subst h1
        exact Nat.mod_lt n (by omega)

theorem digitChar10_isDigit {d : Nat} (h : d < 10) : (digitChar10 d).isDigit = true := by
  interval_cases d <;> decide

theorem pyStrNat_chars (n : Nat) : ∀ ch ∈ (pyStrNat n).data, ch.isDigit = true := by
  intro ch hch
  simp only [pyStrNat, natDigits, List.mem_map] at hch
  obtain ⟨d, hd, rfl⟩ := hch
  exact digitChar10_isDigit (natDigitsAux_lt_ten (n + 1) n d hd)

theorem fracDigits_lt_ten (fuel : Nat) :
    ∀ n d, 0 < d → n < d → ∀ x ∈ fracDigits fuel n d, x < 10 := by
  induction fuel with
  | zero => intro n d _ _ x hx; simp [fracDigits] at hx
  | succ fuel ih =>
    intro n d hd hn x hx
    unfold fracDigits at hx
    split_ifs at hx with h
    · simp at hx
    · rcases List.mem_cons.mp hx with h1 | h1
      · subst h1
        rw [Nat.div_lt_iff_lt_mul hd]
        omega
      · exact ih ((n * 10) % d) d hd (Nat.mod_lt _ hd) x h1

/-- Every character produced by `str` on a numeric value is a decimal digit,
a minus sign, or a decimal point — in particular no thousands separator and
no locale-dependent character ever appears. -/
theorem strNumeric_chars (v : Value) (hv : v.isNumeric = true) :
    ∀ ch ∈ (Value.str v).data, ch.isDigit = true ∨ ch = '-' ∨ ch = '.' := by
  intro ch hch
  match v with
  | .vStr s => simp [Value.isNumeric] at hv
  | .vInt i =>
    cases i with
    | ofNat n => exact Or.inl (pyStrNat_chars n ch hch)
    | negSucc n =>
      simp only [Value.str, pyStrInt, String.data_append] at hch
      rcases List.mem_append.mp hch with h1 | h1
      · simp at h1
        subst h1
        exact Or.inr (Or.inl rfl)
      · exact Or.inl (pyStrNat_chars (n + 1) ch h1)
  | .vRat q =>
    have hden : 0 < q.den := q.den_pos
    have hfrac : ∀ x ∈ fracDigits 17 (q.num.natAbs % q.den) q.den, x < 10 :=
      fracDigits_lt_ten 17 _ _ hden (Nat.mod_lt _ hden)
    simp only [Value.str, pyStrRat, String.data_append] at hch
    rcases List.mem_append.mp hch with h1 | h1
    · rcases List.mem_append.mp h1 with h2 | h2
      · rcases List.mem_append.mp h2 with h3 | h3
        · by_cases hq : q < 0 <;> simp [hq] at h3
          subst h3
          exact Or.inr (Or.inl rfl)
        · exact Or.inl (pyStrNat_chars _ ch h3)
      · simp at h2
        subst h2
        exact Or.inr (Or.inr rfl)
    · split_ifs at h1 with hemp
      · simp at h1
        subst h1
        exact Or.inl (by decide)
      · simp only [List.mem_map] at h1
        obtain ⟨d, hd, rfl⟩ := h1
        exact Or.inl (digitChar10_isDigit (hfrac d hd))

/-- C8: the textual rendering of a cell is deterministic — querying the same
cell of the same held snapshot twice (through the state returned by the
first query) yields the identical result — and for every numeric value the
rendered text consists solely of decimal digits, `-` and `.`: standard
decimal formatting with no thousands separators and no locale-dependent
characters (the embedding of `str` takes no locale input at all). -/
theorem render_deterministic_spec :
    (∀ (m : PandasModel) (idx : QModelIndex) (role : Nat),
       (m.data idx role).1 = (((m.data idx role).2).data idx role).1)
    ∧ (∀ v : Value, v.isNumeric = true →
       (Value.str v).data.all (fun ch => ch.isDigit || ch == '-' || ch == '.') = true) := by
  constructor
  · intro m idx role
    rfl
  · intro v hv
    rw [List.all_eq_true]
    intro ch hch
    rcases strNumeric_chars v hv ch hch with h | h | h <;> simp [h]

/-- Witness for C8: the rendering of the integer `-12` passes the
digits-minus-dot character check. -/
theorem render_deterministic_spec_witness :
    (Value.str (Value.vInt (-12))).data.all
      (fun ch => ch.isDigit || ch == '-' || ch == '.') = true :=
  render_deterministic_spec.2 (Value.vInt (-12)) rfl

/-- Counterexample to C10 as stated: for a table that is present but whose
frame has no numeric columns, `get_statistics` does not return the
`describe()` summary — `df_num.describe()` raises
`ValueError("Cannot describe a DataFrame without columns")`, which
propagates out of `get_statistics`. -/
theorem get_statistics_raise_cex :
    (dfText.selectNumber).columns = []
    ∧ get_statistics [("t", dfText)] "t"
        = .error "Cannot describe a DataFrame without columns" :=
  ⟨rfl, rfl⟩

/-- C10 amended: on a name absent from `data_tables`, `get_statistics`
never raises and returns the one-row, one-column fallback frame whose
single column is `Ошибка` and whose single cell reads `Таблица не найдена`;
on a present name whose numeric selection has at least one column it
returns the transposed, 2-decimal-rounded `describe()` summary of the
numeric columns; but on a present name with no numeric columns,
`describe()` raises `ValueError("Cannot describe a DataFrame without
columns")`, which propagates out of `get_statistics`. -/
theorem get_statistics_spec (data_tables : List (String × DataFrame)) (table_name : String) :
    (data_tables.lookup table_name = none →
       get_statistics data_tables table_name = .ok errorTable
       ∧ errorTable.shape0 = 1 ∧ errorTable.shape1 = 1
       ∧ errorTable.columns = [.vStr "Ошибка"]
       ∧ errorTable.iloc 0 0 = .ok (.vStr "Таблица не найдена"))
    ∧ (∀ df, data_tables.lookup table_name = some df →
       (df.selectNumber).columns ≠ [] →
       get_statistics data_tables table_name =
         .ok (((df.selectNumber).describeFrame).transpose.round2))
    ∧ (∀ df, data_tables.lookup table_name = some df →
       (df.selectNumber).columns = [] →
       get_statistics data_tables table_name =
         .error "Cannot describe a DataFrame without columns") := by
  refine ⟨?_, ?_, ?_⟩
  · intro h
    refine ⟨?_, rfl, rfl, rfl, rfl⟩
    unfold get_statistics
    rw [h]
  · intro df h hne
    have hb : (df.selectNumber).columns.isEmpty = false := by
      cases hcs : (df.selectNumber).columns with
      | nil => exact absurd hcs hne
      | cons a l => rfl
    simp [get_statistics, h, DataFrame.describe, hb, Except.map]
  · intro df h hempty
    have hb : (df.selectNumber).columns.isEmpty = true := by
      rw [hempty]; rfl
    simp [get_statistics, h, DataFrame.describe, hb, Except.map]

/-- Witness for C10 (amended): a miss on the empty table map yields the
fallback frame; a hit on a numeric frame returns the statistics pipeline;
a hit on a text-only frame raises the describe error. -/
theorem get_statistics_spec_witness :
    get_statistics [] "Электромобили" = .ok errorTable
    ∧ get_statistics [("t", dfOne)] "t" =
        .ok (((dfOne.selectNumber).describeFrame).transpose.round2)
    ∧ get_statistics [("s", dfText)] "s"
        = .error "Cannot describe a DataFrame without columns" :=
  ⟨((get_statistics_spec [] "Электромобили").1 rfl).1,
   (get_statistics_spec [("t", dfOne)] "t").2.1 dfOne rfl (by decide),
   (get_statistics_spec [("s", dfText)] "s").2.2 dfText rfl (by decide)⟩
